import Mathlib

/-!
# Verification of the approval orchestration engine of `evm-tools`

Shallow embedding of `src/tools/approve.ts` and the spender loop of
`src/scripts/approve-uniswap.ts`.  Chain interactions (metadata reads, the
allowance read, transaction submission, the confirmation wait) are modelled by
an explicit per-triple behavior record: each interaction either returns a value
or raises, carrying the message string that the catch block in `approveToken`
would extract from the thrown value.  Transaction submissions and confirmation
waits are additionally recorded in an event trace so that claims about "zero
transactions", "exactly one submit call" and submission order can be stated.
-/

namespace EvmTools

/-- `ApprovalResult` from `src/tools/approve.ts`.  The optional TypeScript
fields `txHash?` and `error?` become `Option String`; a field is "present"
exactly when the option is `some`. -/
structure ApprovalResult where
  success : Bool
  skipped : Bool
  txHash : Option String
  error : Option String
  walletAddress : String
  tokenAddress : String
  spenderAddress : String
deriving Repr, DecidableEq

/-- The part of an ethers transaction receipt that `approveToken` inspects:
`receipt.status` and `receipt.blockNumber`. -/
structure TxReceipt where
  status : Nat
  blockNumber : Nat
deriving Repr, DecidableEq

/-- Behavior of the chain for one (wallet, token, spender) triple: the outcome
of each interaction `approveToken` can perform, in source order.  `Except.error
msg` models the interaction throwing, with `msg` the string the catch block
extracts (`error instanceof Error ? error.message : String(error)`).
`wait = .ok none` models `tx.wait()` resolving to a null receipt. -/
structure ChainBehavior where
  symbol : Except String String
  decimals : Except String Nat
  allowance : Except String Nat
  approve : Except String String
  wait : Except String (Option TxReceipt)

/-- Observable chain-write events emitted by `approveToken`: a call to
`tokenContract.approve(spender, amount)` and a call to `tx.wait()`. -/
inductive ChainEvent where
  | submit (walletAddress tokenAddress spenderAddress : String) (amount : Nat)
  | waitConf (walletAddress tokenAddress spenderAddress : String)
deriving Repr, DecidableEq

/-- Whether an event is a transaction submission. -/
def ChainEvent.isSubmit : ChainEvent → Bool
  | .submit _ _ _ _ => true
  | .waitConf _ _ _ => false

/-- Whether an event is a confirmation wait. -/
def ChainEvent.isWaitConf : ChainEvent → Bool
  | .submit _ _ _ _ => false
  | .waitConf _ _ _ => true

/-- The wallet address an event is tagged with. -/
def ChainEvent.walletOf : ChainEvent → String
  | .submit w _ _ _ => w
  | .waitConf w _ _ => w

/-- The token address an event is tagged with. -/
def ChainEvent.tokenOf : ChainEvent → String
  | .submit _ t _ _ => t
  | .waitConf _ t _ => t

/-- The spender address an event is tagged with. -/
def ChainEvent.spenderOf : ChainEvent → String
  | .submit _ _ s _ => s
  | .waitConf _ _ s => s

/-- `MAX_UINT256` from `src/config/contracts.ts`: ethers' `MaxUint256`,
the maximum unsigned 256-bit integer. -/
def MAX_UINT256 : Nat := 2 ^ 256 - 1

/-- `checkAllowance` from `src/tools/approve.ts`: reads the current allowance
for (wallet, token, spender); a pure delegation to the chain. -/
def checkAllowance (b : ChainBehavior) : Except String Nat :=
  b.allowance

/-- `approveToken` from `src/tools/approve.ts` (lines 42-103).  Returns the
`ApprovalResult` together with the trace of chain-write events, mirroring the
source control flow: resolve symbol and decimals, read the allowance, skip when
it is at least `MAX_UINT256`, otherwise submit `approve(spender, MAX_UINT256)`
(the submit event is emitted at the call, whether or not it throws), record
`tx.hash` on the result, then wait for confirmation when asked.  Every throw
inside the `try` block lands in the catch arm of the corresponding match,
which stores the message on the result exactly as the source catch does. -/
def approveToken (b : ChainBehavior)
    (walletAddress tokenAddress spenderAddress : String)
    (waitForConfirmation : Bool) : ApprovalResult × List ChainEvent :=
  let result : ApprovalResult :=
    { success := false, skipped := false, txHash := none, error := none,
      walletAddress := walletAddress, tokenAddress := tokenAddress,
      spenderAddress := spenderAddress }
  match b.symbol with
  | .error e => ({ result with error := some e }, [])
  | .ok _ =>
    match b.decimals with
    | .error e => ({ result with error := some e }, [])
    | .ok _ =>
      match checkAllowance b with
      | .error e => ({ result with error := some e }, [])
      | .ok currentAllowance =>
        if MAX_UINT256 ≤ currentAllowance then
          ({ result with success := true, skipped := true }, [])
        else
          let sendEv := ChainEvent.submit walletAddress tokenAddress
            spenderAddress MAX_UINT256
          match b.approve with
          | .error e => ({ result with error := some e }, [sendEv])
          | .ok txHash =>
            let result := { result with txHash := some txHash }
            if waitForConfirmation then
              let evs := [sendEv,
                ChainEvent.waitConf walletAddress tokenAddress spenderAddress]
              match b.wait with
              | .error e => ({ result with error := some e }, evs)
              | .ok (some receipt) =>
                if receipt.status == 1 then
                  ({ result with success := true }, evs)
                else
                  ({ result with error := some "Transaction failed" }, evs)
              | .ok none =>
                ({ result with error := some "Transaction failed" }, evs)
            else
              ({ result with success := true }, [sendEv])

/-- The environment of a batch: each (wallet, token, spender) triple has its
own chain behavior, independent of the others. -/
def Env : Type := String → String → String → ChainBehavior

/-- `approveMultipleTokens` from `src/tools/approve.ts` (lines 113-132): loop
over the token addresses in the order supplied, awaiting each `approveToken`
call and pushing its result.  The event traces concatenate in the same order. -/
def approveMultipleTokens (env : Env) (walletAddress : String)
    (tokenAddresses : List String) (spenderAddress : String)
    (waitForConfirmation : Bool) : List ApprovalResult × List ChainEvent :=
  match tokenAddresses with
  | [] => ([], [])
  | tokenAddress :: rest =>
    let step := approveToken (env walletAddress tokenAddress spenderAddress)
      walletAddress tokenAddress spenderAddress waitForConfirmation
    let tail := approveMultipleTokens env walletAddress rest spenderAddress
      waitForConfirmation
    (step.1 :: tail.1, step.2 ++ tail.2)

/-- `approveForMultipleWallets` from `src/tools/approve.ts` (lines 142-171):
loop over the wallets in the order they were derived, calling
`approveMultipleTokens` for each and appending all results. -/
def approveForMultipleWallets (env : Env) (walletAddresses : List String)
    (tokenAddresses : List String) (spenderAddress : String)
    (waitForConfirmation : Bool) : List ApprovalResult × List ChainEvent :=
  match walletAddresses with
  | [] => ([], [])
  | walletAddress :: rest =>
    let step := approveMultipleTokens env walletAddress tokenAddresses
      spenderAddress waitForConfirmation
    let tail := approveForMultipleWallets env rest tokenAddresses spenderAddress
      waitForConfirmation
    (step.1 ++ tail.1, step.2 ++ tail.2)

/-- The batch entry point: the spender loop of `src/scripts/approve-uniswap.ts`
(lines 135-148) fanning out over `approveForMultipleWallets`, collecting all
results in spender order. -/
def runApprovalBatch (env : Env) (walletAddresses : List String)
    (tokenAddresses : List String) (spenderAddresses : List String)
    (waitForConfirmation : Bool) : List ApprovalResult × List ChainEvent :=
  match spenderAddresses with
  | [] => ([], [])
  | spenderAddress :: rest =>
    let step := approveForMultipleWallets env walletAddresses tokenAddresses
      spenderAddress waitForConfirmation
    let tail := runApprovalBatch env walletAddresses tokenAddresses rest
      waitForConfirmation
    (step.1 ++ tail.1, step.2 ++ tail.2)

/-- The aggregate values computed by `displayApprovalSummary`. -/
structure ApprovalSummary where
  successful : Nat
  skipped : Nat
  failed : Nat
  failureDetails : List ApprovalResult
deriving Repr, DecidableEq

/-- `displayApprovalSummary` from `src/tools/approve.ts` (lines 177-203),
with its console output abstracted to the values it computes and displays:
`successful` counts records with `success && !skipped`, `skipped` counts
records with `skipped`, `failed` counts records with `!success`, and the
failure details displayed are exactly the records with `!success`. -/
def displayApprovalSummary (results : List ApprovalResult) : ApprovalSummary :=
  { successful := (results.filter (fun r => r.success && !r.skipped)).length
    skipped := (results.filter (fun r => r.skipped)).length
    failed := (results.filter (fun r => !r.success)).length
    failureDetails := results.filter (fun r => !r.success) }

/-! ## Concrete chain behaviors and records used in witnesses -/

/-- Every chain call succeeds, the allowance starts at zero, the approval is
mined with success status. -/
def happyBehavior : ChainBehavior :=
  { symbol := .ok "USDC", decimals := .ok 6, allowance := .ok 0,
    approve := .ok "0xaaa", wait := .ok (some { status := 1, blockNumber := 100 }) }

/-- The allowance is already at the maximum uint256 value. -/
def maxedBehavior : ChainBehavior :=
  { symbol := .ok "USDC", decimals := .ok 6, allowance := .ok MAX_UINT256,
    approve := .ok "0xaaa", wait := .ok (some { status := 1, blockNumber := 100 }) }

/-- The symbol read raises. -/
def symbolRaisesBehavior : ChainBehavior :=
  { symbol := .error "network down", decimals := .ok 6, allowance := .ok 0,
    approve := .ok "0xaaa", wait := .ok (some { status := 1, blockNumber := 100 }) }

/-- The decimals read raises. -/
def decimalsRaisesBehavior : ChainBehavior :=
  { symbol := .ok "USDC", decimals := .error "bad response", allowance := .ok 0,
    approve := .ok "0xaaa", wait := .ok (some { status := 1, blockNumber := 100 }) }

/-- The allowance read raises. -/
def allowanceRaisesBehavior : ChainBehavior :=
  { symbol := .ok "USDC", decimals := .ok 6, allowance := .error "rpc timeout",
    approve := .ok "0xaaa", wait := .ok (some { status := 1, blockNumber := 100 }) }

/-- Submitting the approval transaction raises. -/
def submitRaisesBehavior : ChainBehavior :=
  { symbol := .ok "USDC", decimals := .ok 6, allowance := .ok 0,
    approve := .error "insufficient funds",
    wait := .ok (some { status := 1, blockNumber := 100 }) }

/-- The confirmation wait raises. -/
def waitRaisesBehavior : ChainBehavior :=
  { symbol := .ok "USDC", decimals := .ok 6, allowance := .ok 0,
    approve := .ok "0xaaa", wait := .error "tx dropped" }

/-- The transaction is mined with failure status (on-chain revert). -/
def revertBehavior : ChainBehavior :=
  { symbol := .ok "USDC", decimals := .ok 6, allowance := .ok 0,
    approve := .ok "0xaaa", wait := .ok (some { status := 0, blockNumber := 101 }) }

/-- An exception whose extracted message is the empty string. -/
def emptyMessageBehavior : ChainBehavior :=
  { symbol := .error "", decimals := .ok 6, allowance := .ok 0,
    approve := .ok "0xaaa", wait := .ok (some { status := 1, blockNumber := 100 }) }

/-- A skipped-and-successful record, as `approveToken` produces on skip. -/
def skipRecord : ApprovalResult :=
  { success := true, skipped := true, txHash := none, error := none,
    walletAddress := "0xw1", tokenAddress := "0xt1", spenderAddress := "0xs1" }

/-- A failed record carrying an error message. -/
def failRecord : ApprovalResult :=
  { success := false, skipped := false, txHash := none,
    error := some "insufficient funds",
    walletAddress := "0xw2", tokenAddress := "0xt1", spenderAddress := "0xs1" }

/-- A record combination `approveToken` never produces: skipped but not
successful.  `displayApprovalSummary` counts it twice. -/
def inconsistentRecord : ApprovalResult :=
  { success := false, skipped := true, txHash := none, error := none,
    walletAddress := "0xw1", tokenAddress := "0xt1", spenderAddress := "0xs1" }

/-- A two-record result sequence with one skip and one failure. -/
def demoResults : List ApprovalResult := [skipRecord, failRecord]

end EvmTools

namespace EvmTools

/-! ## Helper lemmas about the Executor -/

lemma approveToken_addresses (b : ChainBehavior) (w t s : String) (c : Bool) :
    (approveToken b w t s c).1.walletAddress = w ∧
    (approveToken b w t s c).1.tokenAddress = t ∧
    (approveToken b w t s c).1.spenderAddress = s := by
  rcases b with ⟨sym, dec, alw, app, wt⟩
  rcases sym with e | sv <;> rcases dec with e | dv <;> rcases alw with e | av <;>
    rcases app with e | hv <;> rcases wt with e | rc <;>
    simp only [approveToken, checkAllowance] <;>
    (repeat' split) <;> simp

lemma approveToken_skipped_imp (b : ChainBehavior) (w t s : String) (c : Bool)
    (h : (approveToken b w t s c).1.skipped = true) :
    (approveToken b w t s c).1.success = true ∧
    (approveToken b w t s c).1.txHash = none ∧
    (approveToken b w t s c).1.error = none ∧
    (approveToken b w t s c).2 = [] := by
  rcases b with ⟨sym, dec, alw, app, wt⟩
  rcases sym with e | sv <;> rcases dec with e | dv <;> rcases alw with e | av <;>
    rcases app with e | hv <;> rcases wt with e | rc <;>
    simp only [approveToken, checkAllowance] at h ⊢ <;>
    (repeat' split at h) <;> (repeat' split) <;> simp_all

lemma approveToken_error_iff_failure (b : ChainBehavior) (w t s : String) (c : Bool) :
    ((approveToken b w t s c).1.error).isSome = !(approveToken b w t s c).1.success := by
  rcases b with ⟨sym, dec, alw, app, wt⟩
  rcases sym with e | sv <;> rcases dec with e | dv <;> rcases alw with e | av <;>
    rcases app with e | hv <;> rcases wt with e | rc <;>
    simp only [approveToken, checkAllowance] <;>
    (repeat' split) <;> simp

lemma approveToken_events_tagged (b : ChainBehavior) (w t s : String) (c : Bool) :
    ∀ ev ∈ (approveToken b w t s c).2,
      ev.walletOf = w ∧ ev.tokenOf = t ∧ ev.spenderOf = s := by
  rcases b with ⟨sym, dec, alw, app, wt⟩
  rcases sym with e | sv <;> rcases dec with e | dv <;> rcases alw with e | av <;>
    rcases app with e | hv <;> rcases wt with e | rc <;>
    simp only [approveToken, checkAllowance] <;>
    (repeat' split) <;>
    simp [ChainEvent.walletOf, ChainEvent.tokenOf, ChainEvent.spenderOf]

/-! ## Branch evaluation lemmas for `approveToken` -/

lemma approveToken_symbol_raises (b : ChainBehavior) (w t s : String) (c : Bool)
    (e : String) (h : b.symbol = .error e) :
    approveToken b w t s c =
      ({ success := false, skipped := false, txHash := none, error := some e,
         walletAddress := w, tokenAddress := t, spenderAddress := s }, []) := by
  simp [approveToken, h]

lemma approveToken_decimals_raises (b : ChainBehavior) (w t s : String) (c : Bool)
    (sv e : String) (h1 : b.symbol = .ok sv) (h2 : b.decimals = .error e) :
    approveToken b w t s c =
      ({ success := false, skipped := false, txHash := none, error := some e,
         walletAddress := w, tokenAddress := t, spenderAddress := s }, []) := by
  simp [approveToken, checkAllowance, h1, h2]

lemma approveToken_allowance_raises (b : ChainBehavior) (w t s : String) (c : Bool)
    (sv : String) (dv : Nat) (e : String)
    (h1 : b.symbol = .ok sv) (h2 : b.decimals = .ok dv) (h3 : b.allowance = .error e) :
    approveToken b w t s c =
      ({ success := false, skipped := false, txHash := none, error := some e,
         walletAddress := w, tokenAddress := t, spenderAddress := s }, []) := by
  simp [approveToken, checkAllowance, h1, h2, h3]

lemma approveToken_skips (b : ChainBehavior) (w t s : String) (c : Bool)
    (sv : String) (dv a : Nat)
    (h1 : b.symbol = .ok sv) (h2 : b.decimals = .ok dv) (h3 : b.allowance = .ok a)
    (h4 : MAX_UINT256 ≤ a) :
    approveToken b w t s c =
      ({ success := true, skipped := true, txHash := none, error := none,
         walletAddress := w, tokenAddress := t, spenderAddress := s }, []) := by
  simp [approveToken, checkAllowance, h1, h2, h3, h4]

lemma approveToken_submit_raises (b : ChainBehavior) (w t s : String) (c : Bool)
    (sv : String) (dv a : Nat) (e : String)
    (h1 : b.symbol = .ok sv) (h2 : b.decimals = .ok dv) (h3 : b.allowance = .ok a)
    (h4 : a < MAX_UINT256) (h5 : b.approve = .error e) :
    approveToken b w t s c =
      ({ success := false, skipped := false, txHash := none, error := some e,
         walletAddress := w, tokenAddress := t, spenderAddress := s },
       [ChainEvent.submit w t s MAX_UINT256]) := by
  simp [approveToken, checkAllowance, h1, h2, h3, Nat.not_le.mpr h4, h5]

lemma approveToken_no_confirm (b : ChainBehavior) (w t s : String)
    (sv : String) (dv a : Nat) (hash : String)
    (h1 : b.symbol = .ok sv) (h2 : b.decimals = .ok dv) (h3 : b.allowance = .ok a)
    (h4 : a < MAX_UINT256) (h5 : b.approve = .ok hash) :
    approveToken b w t s false =
      ({ success := true, skipped := false, txHash := some hash, error := none,
         walletAddress := w, tokenAddress := t, spenderAddress := s },
       [ChainEvent.submit w t s MAX_UINT256]) := by
  simp [approveToken, checkAllowance, h1, h2, h3, Nat.not_le.mpr h4, h5]

lemma approveToken_wait_raises (b : ChainBehavior) (w t s : String)
    (sv : String) (dv a : Nat) (hash e : String)
    (h1 : b.symbol = .ok sv) (h2 : b.decimals = .ok dv) (h3 : b.allowance = .ok a)
    (h4 : a < MAX_UINT256) (h5 : b.approve = .ok hash) (h6 : b.wait = .error e) :
    approveToken b w t s true =
      ({ success := false, skipped := false, txHash := some hash, error := some e,
         walletAddress := w, tokenAddress := t, spenderAddress := s },
       [ChainEvent.submit w t s MAX_UINT256, ChainEvent.waitConf w t s]) := by
  simp [approveToken, checkAllowance, h1, h2, h3, Nat.not_le.mpr h4, h5, h6]

lemma approveToken_confirmed (b : ChainBehavior) (w t s : String)
    (sv : String) (dv a : Nat) (hash : String) (rc : TxReceipt)
    (h1 : b.symbol = .ok sv) (h2 : b.decimals = .ok dv) (h3 : b.allowance = .ok a)
    (h4 : a < MAX_UINT256) (h5 : b.approve = .ok hash)
    (h6 : b.wait = .ok (some rc)) (h7 : rc.status = 1) :
    approveToken b w t s true =
      ({ success := true, skipped := false, txHash := some hash, error := none,
         walletAddress := w, tokenAddress := t, spenderAddress := s },
       [ChainEvent.submit w t s MAX_UINT256, ChainEvent.waitConf w t s]) := by
  simp [approveToken, checkAllowance, h1, h2, h3, Nat.not_le.mpr h4, h5, h6, h7]

lemma approveToken_reverted (b : ChainBehavior) (w t s : String)
    (sv : String) (dv a : Nat) (hash : String) (rc : TxReceipt)
    (h1 : b.symbol = .ok sv) (h2 : b.decimals = .ok dv) (h3 : b.allowance = .ok a)
    (h4 : a < MAX_UINT256) (h5 : b.approve = .ok hash)
    (h6 : b.wait = .ok (some rc)) (h7 : rc.status ≠ 1) :
    approveToken b w t s true =
      ({ success := false, skipped := false, txHash := some hash,
         error := some "Transaction failed",
         walletAddress := w, tokenAddress := t, spenderAddress := s },
       [ChainEvent.submit w t s MAX_UINT256, ChainEvent.waitConf w t s]) := by
  simp [approveToken, checkAllowance, h1, h2, h3, Nat.not_le.mpr h4, h5, h6, h7]

lemma approveToken_null_receipt (b : ChainBehavior) (w t s : String)
    (sv : String) (dv a : Nat) (hash : String)
    (h1 : b.symbol = .ok sv) (h2 : b.decimals = .ok dv) (h3 : b.allowance = .ok a)
    (h4 : a < MAX_UINT256) (h5 : b.approve = .ok hash) (h6 : b.wait = .ok none) :
    approveToken b w t s true =
      ({ success := false, skipped := false, txHash := some hash,
         error := some "Transaction failed",
         walletAddress := w, tokenAddress := t, spenderAddress := s },
       [ChainEvent.submit w t s MAX_UINT256, ChainEvent.waitConf w t s]) := by
  simp [approveToken, checkAllowance, h1, h2, h3, Nat.not_le.mpr h4, h5, h6]

/-! ## Batch decomposition lemmas -/

lemma approveMultipleTokens_eq (env : Env) (w : String) (ts : List String)
    (s : String) (c : Bool) :
    approveMultipleTokens env w ts s c =
      (ts.map (fun t => (approveToken (env w t s) w t s c).1),
       ts.flatMap (fun t => (approveToken (env w t s) w t s c).2)) := by
  induction ts with
  | nil => simp [approveMultipleTokens]
  | cons t rest ih => simp [approveMultipleTokens, ih]

lemma approveForMultipleWallets_eq (env : Env) (ws ts : List String)
    (s : String) (c : Bool) :
    approveForMultipleWallets env ws ts s c =
      (ws.flatMap (fun w => ts.map (fun t => (approveToken (env w t s) w t s c).1)),
       ws.flatMap (fun w => ts.flatMap (fun t => (approveToken (env w t s) w t s c).2))) := by
  induction ws with
  | nil => simp [approveForMultipleWallets]
  | cons w rest ih => simp [approveForMultipleWallets, ih, approveMultipleTokens_eq]

lemma runApprovalBatch_eq (env : Env) (ws ts ss : List String) (c : Bool) :
    runApprovalBatch env ws ts ss c =
      (ss.flatMap (fun s => ws.flatMap (fun w =>
        ts.map (fun t => (approveToken (env w t s) w t s c).1))),
       ss.flatMap (fun s => ws.flatMap (fun w =>
        ts.flatMap (fun t => (approveToken (env w t s) w t s c).2)))) := by
  induction ss with
  | nil => simp [runApprovalBatch]
  | cons s rest ih => simp [runApprovalBatch, ih, approveForMultipleWallets_eq]

end EvmTools

namespace EvmTools

lemma length_cross_inner (s : String) (ws ts : List String) :
    (ws.flatMap (fun w => ts.map (fun t => (s, w, t)))).length =
      ws.length * ts.length := by
  induction ws with
  | nil => simp
  | cons w rest ih => simp [ih]; ring

lemma length_cross (ss ws ts : List String) :
    (ss.flatMap (fun s => ws.flatMap (fun w => ts.map (fun t => (s, w, t))))).length =
      ss.length * ws.length * ts.length := by
  induction ss with
  | nil => simp
  | cons s rest ih =>
    rw [List.flatMap_cons, List.length_append, length_cross_inner, ih]
    simp only [List.length_cons]
    ring

/-- C1: for every ordered sequence of wallets, tokens and spenders, the batch
(the spender loop fanning out over `approveForMultipleWallets` and
`approveMultipleTokens`) returns exactly `s·w·t` ApprovalResult records, one
per (spender, wallet, token) combination in order, and none is dropped
whatever the chain behaviors (including failing ones) are. -/
theorem runApprovalBatch_completeness (env : Env) (ws ts ss : List String) (c : Bool) :
    ((runApprovalBatch env ws ts ss c).1.map
        (fun r => (r.spenderAddress, r.walletAddress, r.tokenAddress)) =
      ss.flatMap (fun s => ws.flatMap (fun w => ts.map (fun t => (s, w, t))))) ∧
    (runApprovalBatch env ws ts ss c).1.length =
      ss.length * ws.length * ts.length := by
  have key : ∀ s w t : String,
      ((approveToken (env w t s) w t s c).1.spenderAddress,
       (approveToken (env w t s) w t s c).1.walletAddress,
       (approveToken (env w t s) w t s c).1.tokenAddress) = (s, w, t) := by
    intro s w t
    obtain ⟨hw, ht, hs⟩ := approveToken_addresses (env w t s) w t s c
    rw [hw, ht, hs]
  have hmap : (runApprovalBatch env ws ts ss c).1.map
      (fun r => (r.spenderAddress, r.walletAddress, r.tokenAddress)) =
      ss.flatMap (fun s => ws.flatMap (fun w => ts.map (fun t => (s, w, t)))) := by
    rw [runApprovalBatch_eq]
    simp only [List.map_flatMap, List.map_map, Function.comp_def, key]
  refine ⟨hmap, ?_⟩
  have hlen := congrArg List.length hmap
  rw [List.length_map] at hlen
  rw [hlen, length_cross]

/-- C2: every exception raised while resolving metadata, reading the
allowance, submitting, or awaiting confirmation is caught inside
`approveToken` and becomes a failed outcome carrying the exception's message,
and the batch processes every triple from its own chain behavior alone, so a
failing triple never affects the outcomes of the following ones. -/
theorem approveToken_failure_isolation :
    (∀ b w t s c e, b.symbol = .error e →
      (approveToken b w t s c).1.success = false ∧
      (approveToken b w t s c).1.error = some e) ∧
    (∀ b w t s c sv e, b.symbol = .ok sv → b.decimals = .error e →
      (approveToken b w t s c).1.success = false ∧
      (approveToken b w t s c).1.error = some e) ∧
    (∀ b w t s c sv e, ∀ dv : Nat, b.symbol = .ok sv → b.decimals = .ok dv →
      b.allowance = .error e →
      (approveToken b w t s c).1.success = false ∧
      (approveToken b w t s c).1.error = some e) ∧
    (∀ b w t s c sv e, ∀ dv a : Nat, b.symbol = .ok sv → b.decimals = .ok dv →
      b.allowance = .ok a → a < MAX_UINT256 → b.approve = .error e →
      (approveToken b w t s c).1.success = false ∧
      (approveToken b w t s c).1.error = some e) ∧
    (∀ b w t s sv hash e, ∀ dv a : Nat, b.symbol = .ok sv → b.decimals = .ok dv →
      b.allowance = .ok a → a < MAX_UINT256 → b.approve = .ok hash →
      b.wait = .error e →
      (approveToken b w t s true).1.success = false ∧
      (approveToken b w t s true).1.error = some e) ∧
    (∀ env ws ts ss c, (runApprovalBatch env ws ts ss c).1 =
      ss.flatMap (fun s => ws.flatMap (fun w =>
        ts.map (fun t => (approveToken (env w t s) w t s c).1)))) := by
  refine ⟨?_, ?_, ?_, ?_, ?_, ?_⟩
  · intro b w t s c e h
    rw [approveToken_symbol_raises b w t s c e h]
    exact ⟨rfl, rfl⟩
  · intro b w t s c sv e h1 h2
    rw [approveToken_decimals_raises b w t s c sv e h1 h2]
    exact ⟨rfl, rfl⟩
  · intro b w t s c sv e dv h1 h2 h3
    rw [approveToken_allowance_raises b w t s c sv dv e h1 h2 h3]
    exact ⟨rfl, rfl⟩
  · intro b w t s c sv e dv a h1 h2 h3 h4 h5
    rw [approveToken_submit_raises b w t s c sv dv a e h1 h2 h3 h4 h5]
    exact ⟨rfl, rfl⟩
  · intro b w t s sv hash e dv a h1 h2 h3 h4 h5 h6
    rw [approveToken_wait_raises b w t s sv dv a hash e h1 h2 h3 h4 h5 h6]
    exact ⟨rfl, rfl⟩
  · intro env ws ts ss c
    simpa using congrArg Prod.fst (runApprovalBatch_eq env ws ts ss c)

/-- C3: whenever the allowance read returns a value at least `2^256 - 1`
(after the metadata reads succeeded, which is what reaching the allowance read
means), `approveToken` produces a skipped outcome, emits no chain-write event
at all, and the outcome carries no transaction hash and no error. -/
theorem approveToken_skip_correct (b : ChainBehavior) (w t s : String) (c : Bool)
    (sv : String) (dv a : Nat)
    (h1 : b.symbol = .ok sv) (h2 : b.decimals = .ok dv) (h3 : b.allowance = .ok a)
    (h4 : MAX_UINT256 ≤ a) :
    (approveToken b w t s c).1.skipped = true ∧
    (approveToken b w t s c).1.txHash = none ∧
    (approveToken b w t s c).1.error = none ∧
    (approveToken b w t s c).2 = [] := by
  rw [approveToken_skips b w t s c sv dv a h1 h2 h3 h4]
  exact ⟨rfl, rfl, rfl, rfl⟩

/-- C4: whenever the allowance read returns a value below `2^256 - 1`,
`approveToken` makes exactly one submit call, whose amount is `2^256 - 1`,
the submit call comes before any other chain-write event, and when submission
returns a hash the outcome records exactly that hash (whatever the
confirmation wait later does). -/
theorem approveToken_send_correct (b : ChainBehavior) (w t s : String) (c : Bool)
    (sv : String) (dv a : Nat)
    (h1 : b.symbol = .ok sv) (h2 : b.decimals = .ok dv) (h3 : b.allowance = .ok a)
    (h4 : a < MAX_UINT256) :
    ((approveToken b w t s c).2.filter ChainEvent.isSubmit =
      [ChainEvent.submit w t s MAX_UINT256]) ∧
    ((approveToken b w t s c).2.head? = some (ChainEvent.submit w t s MAX_UINT256)) ∧
    (∀ hash, b.approve = .ok hash →
      (approveToken b w t s c).1.txHash = some hash) := by
  rcases b with ⟨sym, dec, alw, app, wt⟩
  simp only at h1 h2 h3
  subst h1; subst h2; subst h3
  rcases app with e | hash <;> cases c <;> rcases wt with e2 | rc <;>
    simp only [approveToken, checkAllowance, Nat.not_le.mpr h4, if_false,
      ChainEvent.isSubmit] <;>
    (repeat' split) <;>
    simp_all [ChainEvent.isSubmit]

end EvmTools

namespace EvmTools


/-! ## Reporter closure -/

lemma summary_closure :
    ∀ results : List ApprovalResult,
      (∀ r ∈ results, r.skipped = true → r.success = true) →
      (results.filter (fun r => r.success && !r.skipped)).length +
        (results.filter (fun r => r.skipped)).length +
        (results.filter (fun r => !r.success)).length = results.length := by
  intro results
  induction results with
  | nil => intro _; simp
  | cons r rest ih =>
    intro h
    have hrest : ∀ x ∈ rest, x.skipped = true → x.success = true :=
      fun x hx => h x (List.mem_cons_of_mem _ hx)
    have ihh := ih hrest
    have hr := h r (List.mem_cons_self _ _)
    by_cases hsk : r.skipped = true
    · have hsu : r.success = true := hr hsk
      simp [List.filter_cons, hsk, hsu]
      omega
    · by_cases hsu : r.success = true
      · simp [List.filter_cons, hsk, hsu]
        omega
      · simp [List.filter_cons, hsk, hsu]
        omega

/-- C5 counterexample: on a record marked skipped but not successful (a
combination the claim's quantification over all record sequences admits),
`displayApprovalSummary` counts the record both as skipped and as failed, so
the three counts sum to 2 on a one-record sequence. -/
theorem displayApprovalSummary_closure_counterexample :
    (displayApprovalSummary [inconsistentRecord]).successful +
      (displayApprovalSummary [inconsistentRecord]).skipped +
      (displayApprovalSummary [inconsistentRecord]).failed ≠
      [inconsistentRecord].length := by
  decide

/-- C5 (amended): for any sequence of ApprovalResult records in which every
skipped record is also marked successful — as all records produced by
`approveToken` are — the succeeded, skipped and failed counts of
`displayApprovalSummary` sum to the total number of records; and for any
sequence at all, the displayed failure details have length equal to the
failed count. -/
theorem displayApprovalSummary_closure (results : List ApprovalResult) :
    ((∀ r ∈ results, r.skipped = true → r.success = true) →
      (displayApprovalSummary results).successful +
        (displayApprovalSummary results).skipped +
        (displayApprovalSummary results).failed = results.length) ∧
    (displayApprovalSummary results).failureDetails.length =
      (displayApprovalSummary results).failed :=
  ⟨fun h => summary_closure results h, rfl⟩

/-- Witness for C5 at a concrete two-record sequence. -/
theorem displayApprovalSummary_closure_witness :
    (displayApprovalSummary demoResults).successful +
      (displayApprovalSummary demoResults).skipped +
      (displayApprovalSummary demoResults).failed = demoResults.length ∧
    (displayApprovalSummary demoResults).failureDetails.length =
      (displayApprovalSummary demoResults).failed :=
  ⟨(displayApprovalSummary_closure demoResults).1 (by decide),
   (displayApprovalSummary_closure demoResults).2⟩

end EvmTools

namespace EvmTools

/-- C6: the chain-write trace of the batch is the in-order concatenation —
outer loop over spenders as supplied, middle loop over wallets as derived,
inner loop over tokens as supplied — of the traces of the individual
Executor calls, each run to completion before the next starts; and every
event of an Executor call's trace carries that call's wallet, token and
spender, so for a fixed wallet the submitted transactions occur in outer
spender order then token order. -/
theorem runApprovalBatch_ordering :
    (∀ env ws ts ss c, (runApprovalBatch env ws ts ss c).2 =
      ss.flatMap (fun s => ws.flatMap (fun w =>
        ts.flatMap (fun t => (approveToken (env w t s) w t s c).2)))) ∧
    (∀ b w t s c, ∀ ev ∈ (approveToken b w t s c).2,
      ev.walletOf = w ∧ ev.tokenOf = t ∧ ev.spenderOf = s) := by
  constructor
  · intro env ws ts ss c
    simpa using congrArg Prod.snd (runApprovalBatch_eq env ws ts ss c)
  · exact approveToken_events_tagged

/-- Witness for C6: the submit event of a concrete Executor run is tagged
with the run's triple. -/
theorem runApprovalBatch_ordering_witness :
    (ChainEvent.submit "0xw1" "0xt1" "0xs1" MAX_UINT256).walletOf = "0xw1" ∧
    (ChainEvent.submit "0xw1" "0xt1" "0xs1" MAX_UINT256).tokenOf = "0xt1" ∧
    (ChainEvent.submit "0xw1" "0xt1" "0xs1" MAX_UINT256).spenderOf = "0xs1" :=
  runApprovalBatch_ordering.2 happyBehavior "0xw1" "0xt1" "0xs1" true
    (ChainEvent.submit "0xw1" "0xt1" "0xs1" MAX_UINT256) (by decide)

/-- C7 counterexample: a transaction mined with failure status yields the
error string "Transaction failed" (capital T), not the claimed fixed string
"transaction failed". -/
theorem approveToken_revert_message_counterexample :
    (approveToken revertBehavior "0xw1" "0xt1" "0xs1" true).1.success = false ∧
    (approveToken revertBehavior "0xw1" "0xt1" "0xs1" true).1.error ≠
      some "transaction failed" := by
  decide

/-- C7 (amended): for every triple whose approval transaction is submitted
with confirmation requested and is mined with failure status, `approveToken`
produces a failed outcome whose error description is the fixed string
"Transaction failed". -/
theorem approveToken_revert_message (b : ChainBehavior) (w t s : String)
    (sv : String) (dv a : Nat) (hash : String) (rc : TxReceipt)
    (h1 : b.symbol = .ok sv) (h2 : b.decimals = .ok dv) (h3 : b.allowance = .ok a)
    (h4 : a < MAX_UINT256) (h5 : b.approve = .ok hash)
    (h6 : b.wait = .ok (some rc)) (h7 : rc.status ≠ 1) :
    (approveToken b w t s true).1.success = false ∧
    (approveToken b w t s true).1.error = some "Transaction failed" := by
  rw [approveToken_reverted b w t s sv dv a hash rc h1 h2 h3 h4 h5 h6 h7]
  exact ⟨rfl, rfl⟩

/-- Witness for C7 at a concrete reverted transaction. -/
theorem approveToken_revert_message_witness :
    (approveToken revertBehavior "0xw1" "0xt1" "0xs1" true).1.success = false ∧
    (approveToken revertBehavior "0xw1" "0xt1" "0xs1" true).1.error =
      some "Transaction failed" :=
  approveToken_revert_message revertBehavior "0xw1" "0xt1" "0xs1" "USDC" 6 0
    "0xaaa" { status := 0, blockNumber := 101 } rfl rfl rfl (by decide) rfl rfl
    (by decide)

/-- C8: with confirmation off and an allowance below the maximum, the outcome
is succeeded as soon as submission returns a hash, carries exactly that hash,
has no error, and no confirmation wait is performed. -/
theorem approveToken_fire_and_forget (b : ChainBehavior) (w t s : String)
    (sv : String) (dv a : Nat) (hash : String)
    (h1 : b.symbol = .ok sv) (h2 : b.decimals = .ok dv) (h3 : b.allowance = .ok a)
    (h4 : a < MAX_UINT256) (h5 : b.approve = .ok hash) :
    (approveToken b w t s false).1.success = true ∧
    (approveToken b w t s false).1.txHash = some hash ∧
    (approveToken b w t s false).1.error = none ∧
    (approveToken b w t s false).2.filter ChainEvent.isWaitConf = [] := by
  rw [approveToken_no_confirm b w t s sv dv a hash h1 h2 h3 h4 h5]
  exact ⟨rfl, rfl, rfl, rfl⟩

/-- Witness for C8 at a concrete run with confirmation off. -/
theorem approveToken_fire_and_forget_witness :
    (approveToken happyBehavior "0xw1" "0xt1" "0xs1" false).1.success = true ∧
    (approveToken happyBehavior "0xw1" "0xt1" "0xs1" false).1.txHash = some "0xaaa" ∧
    (approveToken happyBehavior "0xw1" "0xt1" "0xs1" false).1.error = none ∧
    (approveToken happyBehavior "0xw1" "0xt1" "0xs1" false).2.filter
      ChainEvent.isWaitConf = [] :=
  approveToken_fire_and_forget happyBehavior "0xw1" "0xt1" "0xs1" "USDC" 6 0
    "0xaaa" rfl rfl rfl (by decide) rfl

/-- C9: every result `approveToken` marks skipped is simultaneously marked
successful and carries neither hash nor error (the spec's tri-state encoded in
two booleans), and the Reporter's succeeded count ignores skipped records: a
skipped record contributes nothing to it. -/
theorem skipped_implies_success :
    (∀ b w t s c, (approveToken b w t s c).1.skipped = true →
      (approveToken b w t s c).1.success = true ∧
      (approveToken b w t s c).1.txHash = none ∧
      (approveToken b w t s c).1.error = none) ∧
    (∀ r results, r.skipped = true →
      (displayApprovalSummary (r :: results)).successful =
        (displayApprovalSummary results).successful) := by
  constructor
  · intro b w t s c h
    obtain ⟨h1, h2, h3, _⟩ := approveToken_skipped_imp b w t s c h
    exact ⟨h1, h2, h3⟩
  · intro r results h
    simp [displayApprovalSummary, List.filter_cons, h]

/-- Witness for C9: a concrete skip run and a concrete skipped record. -/
theorem skipped_implies_success_witness :
    ((approveToken maxedBehavior "0xw1" "0xt1" "0xs1" true).1.success = true ∧
     (approveToken maxedBehavior "0xw1" "0xt1" "0xs1" true).1.txHash = none ∧
     (approveToken maxedBehavior "0xw1" "0xt1" "0xs1" true).1.error = none) ∧
    (displayApprovalSummary [skipRecord]).successful =
      (displayApprovalSummary []).successful :=
  ⟨skipped_implies_success.1 maxedBehavior "0xw1" "0xt1" "0xs1" true (by decide),
   skipped_implies_success.2 skipRecord [] (by decide)⟩

/-- C10 counterexample: an exception whose extracted message is the empty
string produces a failed outcome whose error field is present but empty, so
not every failed outcome carries a non-empty error description. -/
theorem error_presence_counterexample :
    (approveToken emptyMessageBehavior "0xw1" "0xt1" "0xs1" true).1.success = false ∧
    (approveToken emptyMessageBehavior "0xw1" "0xt1" "0xs1" true).1.error = some "" := by
  decide

/-- C10 (amended): in every result `approveToken` produces, the error field
is present exactly when success is false. -/
theorem error_presence_iff_failure (b : ChainBehavior) (w t s : String) (c : Bool) :
    ((approveToken b w t s c).1.error).isSome = !(approveToken b w t s c).1.success :=
  approveToken_error_iff_failure b w t s c

/-- Witness for C3 at a concrete maxed-out allowance. -/
theorem approveToken_skip_correct_witness :
    (approveToken maxedBehavior "0xw1" "0xt1" "0xs1" true).1.skipped = true ∧
    (approveToken maxedBehavior "0xw1" "0xt1" "0xs1" true).1.txHash = none ∧
    (approveToken maxedBehavior "0xw1" "0xt1" "0xs1" true).1.error = none ∧
    (approveToken maxedBehavior "0xw1" "0xt1" "0xs1" true).2 = [] :=
  approveToken_skip_correct maxedBehavior "0xw1" "0xt1" "0xs1" true "USDC" 6
    MAX_UINT256 rfl rfl rfl (le_refl MAX_UINT256)

/-- Witness for C4 at a concrete zero allowance. -/
theorem approveToken_send_correct_witness :
    ((approveToken happyBehavior "0xw1" "0xt1" "0xs1" true).2.filter
        ChainEvent.isSubmit = [ChainEvent.submit "0xw1" "0xt1" "0xs1" MAX_UINT256]) ∧
    ((approveToken happyBehavior "0xw1" "0xt1" "0xs1" true).2.head? =
      some (ChainEvent.submit "0xw1" "0xt1" "0xs1" MAX_UINT256)) ∧
    (approveToken happyBehavior "0xw1" "0xt1" "0xs1" true).1.txHash = some "0xaaa" :=
  ⟨(approveToken_send_correct happyBehavior "0xw1" "0xt1" "0xs1" true "USDC" 6 0
      rfl rfl rfl (by decide)).1,
   (approveToken_send_correct happyBehavior "0xw1" "0xt1" "0xs1" true "USDC" 6 0
      rfl rfl rfl (by decide)).2.1,
   (approveToken_send_correct happyBehavior "0xw1" "0xt1" "0xs1" true "USDC" 6 0
      rfl rfl rfl (by decide)).2.2 "0xaaa" rfl⟩

/-- Witness for C2: each kind of raised exception, at a concrete behavior,
becomes a failed outcome carrying the exception's message. -/
theorem approveToken_failure_isolation_witness :
    ((approveToken symbolRaisesBehavior "0xw1" "0xt1" "0xs1" true).1.success = false ∧
     (approveToken symbolRaisesBehavior "0xw1" "0xt1" "0xs1" true).1.error =
       some "network down") ∧
    ((approveToken decimalsRaisesBehavior "0xw1" "0xt1" "0xs1" true).1.success = false ∧
     (approveToken decimalsRaisesBehavior "0xw1" "0xt1" "0xs1" true).1.error =
       some "bad response") ∧
    ((approveToken allowanceRaisesBehavior "0xw1" "0xt1" "0xs1" true).1.success = false ∧
     (approveToken allowanceRaisesBehavior "0xw1" "0xt1" "0xs1" true).1.error =
       some "rpc timeout") ∧
    ((approveToken submitRaisesBehavior "0xw1" "0xt1" "0xs1" true).1.success = false ∧
     (approveToken submitRaisesBehavior "0xw1" "0xt1" "0xs1" true).1.error =
       some "insufficient funds") ∧
    ((approveToken waitRaisesBehavior "0xw1" "0xt1" "0xs1" true).1.success = false ∧
     (approveToken waitRaisesBehavior "0xw1" "0xt1" "0xs1" true).1.error =
       some "tx dropped") :=
  ⟨approveToken_failure_isolation.1 symbolRaisesBehavior "0xw1" "0xt1" "0xs1"
      true "network down" rfl,
   approveToken_failure_isolation.2.1 decimalsRaisesBehavior "0xw1" "0xt1" "0xs1"
      true "USDC" "bad response" rfl rfl,
   approveToken_failure_isolation.2.2.1 allowanceRaisesBehavior "0xw1" "0xt1" "0xs1"
      true "USDC" "rpc timeout" 6 rfl rfl rfl,
   approveToken_failure_isolation.2.2.2.1 submitRaisesBehavior "0xw1" "0xt1" "0xs1"
      true "USDC" "insufficient funds" 6 0 rfl rfl rfl (by decide) rfl,
   approveToken_failure_isolation.2.2.2.2.1 waitRaisesBehavior "0xw1" "0xt1" "0xs1"
      "USDC" "0xaaa" "tx dropped" 6 0 rfl rfl rfl (by decide) rfl rfl⟩

end EvmTools
